import Mathlib

/-!
Verification of the SpreadsheetML-to-CSV converter (src/app.py).

The embedding mirrors the Python source:
- `get_cell_text` embeds `get_cell_text` (app.py lines 27-31),
- `parseCells` embeds the inner cell loop of `parse_rows` (lines 38-54),
  carrying the 1-based column cursor explicitly and returning the
  accumulated values together with the final cursor,
- `parse_rows` embeds `parse_rows` (lines 34-58),
- `normalizeRow` embeds the row-normalization loop of `main` (lines 97-104),
- `mainModel` embeds the control flow of `main` (lines 61-113) over an
  already-read input: the interactive prompt, filesystem check and XML
  parse are abstracted as the constructors of `Input`.

Python's `int()` on an attribute string is modelled by `parsePyInt`
(decimal integer with optional sign and surrounding whitespace); Python's
`str.strip()` is modelled by `pyStrip` (dropping leading and trailing
whitespace characters).
-/

namespace XmlToCsv

/-- A `Cell` element: the optional raw `ss:Index` attribute string, and the
optional `Data` child, whose own text is optional (`ET.Element.text` can be
`None`). -/
structure Cell where
  index : Option String
  data : Option (Option String)
deriving DecidableEq, Repr

/-- A `Row` element: its `Cell` children in document order. -/
structure Row where
  cells : List Cell
deriving DecidableEq, Repr

/-- A `Table` element: its `Row` children in document order. -/
structure Table where
  rows : List Row
deriving DecidableEq, Repr

/-- A `Worksheet` element: its `Table` children in document order. -/
structure Worksheet where
  tables : List Table
deriving DecidableEq, Repr

/-- The document root: its `Worksheet` children in document order. -/
structure Root where
  worksheets : List Worksheet
deriving DecidableEq, Repr

/-- Drop leading and trailing whitespace from a character list
(model of Python `str.strip()`). -/
def pyTrim (cs : List Char) : List Char :=
  ((cs.dropWhile Char.isWhitespace).reverse.dropWhile Char.isWhitespace).reverse

/-- Model of `str.strip()` on a `String`. -/
def pyStrip (s : String) : String :=
  ⟨pyTrim s.data⟩

/-- Value of a nonempty all-digit character list, most significant first. -/
def digitsVal : List Char → Nat → Nat
  | [], acc => acc
  | c :: cs, acc => digitsVal cs (acc * 10 + (c.toNat - ('0').toNat))

/-- Parse a digit run: `some` exactly when the list is nonempty and all
decimal digits. -/
def parseDigits (cs : List Char) : Option Nat :=
  if cs ≠ [] ∧ cs.all Char.isDigit then some (digitsVal cs 0) else none

/-- Model of Python `int(s)` on a string: optional surrounding whitespace,
optional sign, then a nonempty decimal digit run; `none` models the
`ValueError` that `parse_rows` catches. -/
def parsePyInt (s : String) : Option Int :=
  match pyTrim s.data with
  | '-' :: rest => (parseDigits rest).map (fun n => -(n : Int))
  | '+' :: rest => (parseDigits rest).map (fun n => (n : Int))
  | cs => (parseDigits cs).map (fun n => (n : Int))

/-- Embeds `get_cell_text` (app.py lines 27-31): the text of the cell's
`Data` child, stripped, or `""` when the child or its text is absent. -/
def get_cell_text (c : Cell) : String :=
  match c.data with
  | none => ""
  | some none => ""
  | some (some t) => pyStrip t

/-- The value of `current_col` after the `ss:Index` handling and the
gap-fill `while` loop of `parse_rows` (app.py lines 42-51) for one cell:
with no attribute the cursor is unchanged; with an attribute the target is
its parse result, falling back to the cursor itself on a `ValueError`, and
the `while` loop leaves the cursor at `max cur target`. -/
def targetCursor (c : Cell) (cur : Int) : Int :=
  match c.index with
  | none => cur
  | some s =>
    match parsePyInt s with
    | none => cur
    | some t => max cur t

/-- Embeds the inner loop of `parse_rows` (app.py lines 41-54): processes
the cells in order carrying the column cursor `current_col`; returns the
accumulated value list and the final cursor. The gap-fill `while` loop
appends one `""` per column skipped (`targetCursor c cur - cur` of them),
then the cell's text is appended and the cursor advances by one. -/
def parseCells : List Cell → Int → List String × Int
  | [], cur => ([], cur)
  | c :: cs, cur =>
    (List.replicate (targetCursor c cur - cur).toNat ""
       ++ get_cell_text c :: (parseCells cs (targetCursor c cur + 1)).1,
     (parseCells cs (targetCursor c cur + 1)).2)

/-- The value list produced for one row (`values` at app.py line 56). -/
def reconstructRow (cells : List Cell) : List String :=
  (parseCells cells 1).1

/-- The final value of `current_col` after processing a row's cells. -/
def finalCursor (cells : List Cell) : Int :=
  (parseCells cells 1).2

/-- Embeds `parse_rows` (app.py lines 34-58): one reconstructed value list
per `Row` child, in order. -/
def parse_rows (t : Table) : List (List String) :=
  t.rows.map (fun r => reconstructRow r.cells)

/-- Embeds the normalization loop of `main` (app.py lines 97-104): pad a
short row with `""` to the header length, truncate a long one, pass an
equal-length one through. -/
def normalizeRow (header_len : Nat) (r : List String) : List String :=
  if r.length < header_len then r ++ List.replicate (header_len - r.length) ""
  else if r.length > header_len then r.take header_len
  else r

/-- The input to `main` after the prompt / filesystem / XML-parse stage:
either one of those stages failed, or it produced a document root. -/
inductive Input where
  | badPath
  | badXml
  | parsed (root : Root)
deriving DecidableEq, Repr

/-- What one run of `main` produces: the process exit code, the content
written to `output.csv` (`none` when no file is written), and the one-line
stderr diagnostic (`none` on success). -/
structure RunOutcome where
  exitCode : Int
  written : Option (List (List String))
  errMsg : Option String
deriving DecidableEq, Repr

/-- Embeds the control flow of `main` (app.py lines 61-113): take the first
`Worksheet`, its first `Table`, reconstruct all rows, fail if there are
none, else use the first as headers, normalize the rest, and write
`output.csv`. -/
def mainModel : Input → RunOutcome
  | .badPath => ⟨2, none, some "Error: file not found"⟩
  | .badXml => ⟨2, none, some "Error: failed to parse XML"⟩
  | .parsed root =>
    match root.worksheets.head? with
    | none => ⟨2, none, some "Error: couldn't find <Worksheet> in this SpreadsheetML file."⟩
    | some ws =>
      match ws.tables.head? with
      | none => ⟨2, none, some "Error: couldn't find <Table> inside the worksheet."⟩
      | some table =>
        match parse_rows table with
        | [] => ⟨2, none, some "Error: no rows found in the table."⟩
        | headers :: data_rows =>
          ⟨0, some (headers :: data_rows.map (normalizeRow headers.length)), none⟩

/-! ### Helper lemmas about the cell loop -/

/-- The gap-fill target never lies below the incoming cursor. -/
theorem targetCursor_ge (c : Cell) (cur : Int) : cur ≤ targetCursor c cur := by
  unfold targetCursor
  cases hidx : c.index with
  | none => simp
  | some s =>
    cases hp : parsePyInt s with
    | none => simp [hp]
    | some t => simp [hp, le_max_left]

/-- The final cursor equals the starting cursor plus the number of values
produced: the loop advances `current_col` once per appended string. -/
theorem parseCells_sndEq (cells : List Cell) : ∀ cur : Int,
    (parseCells cells cur).2 = cur + (parseCells cells cur).1.length := by
  induction cells with
  | nil => intro cur; simp [parseCells]
  | cons c cs ih =>
    intro cur
    have h := targetCursor_ge c cur
    simp only [parseCells, List.length_append, List.length_replicate, List.length_cons]
    rw [ih]
    omega

/-- The cursor never moves backward across the whole loop. -/
theorem parseCells_cursor_mono (cells : List Cell) (cur : Int) :
    cur ≤ (parseCells cells cur).2 := by
  have h := parseCells_sndEq cells cur
  omega

/-- Every cell contributes at least one value, so the output is at least as
long as the cell list. -/
theorem parseCells_length_ge (cells : List Cell) : ∀ cur : Int,
    cells.length ≤ (parseCells cells cur).1.length := by
  induction cells with
  | nil => intro cur; simp [parseCells]
  | cons c cs ih =>
    intro cur
    have h := ih (targetCursor c cur + 1)
    simp only [parseCells, List.length_append, List.length_replicate, List.length_cons]
    omega

/-- Processing a concatenation of cell lists processes the first part, then
the second starting from the cursor the first part ends at: the loop is
append-only, earlier output entries are never revisited. -/
theorem parseCells_append (xs ys : List Cell) : ∀ cur : Int,
    parseCells (xs ++ ys) cur =
      ((parseCells xs cur).1 ++ (parseCells ys (parseCells xs cur).2).1,
       (parseCells ys (parseCells xs cur).2).2) := by
  induction xs with
  | nil => intro cur; simp [parseCells]
  | cons c cs ih =>
    intro cur
    simp [parseCells, ih]

/-- With no `ss:Index` attributes the loop degenerates to mapping
`get_cell_text`, the cursor advancing once per cell. -/
theorem parseCells_no_index (cells : List Cell) :
    (∀ c ∈ cells, c.index = none) → ∀ cur : Int,
    parseCells cells cur = (cells.map get_cell_text, cur + cells.length) := by
  induction cells with
  | nil => intro _ cur; simp [parseCells]
  | cons c cs ih =>
    intro h cur
    have hc : c.index = none := h c (List.mem_cons_self c cs)
    have ihcs := ih (fun x hx => h x (List.mem_cons_of_mem _ hx)) (cur + 1)
    simp only [parseCells, targetCursor, hc, ihcs, List.map_cons, List.length_cons,
      Prod.mk.injEq]
    refine ⟨by simp, by omega⟩

/-- A malformed index makes `targetCursor` fall back to the cursor. -/
theorem targetCursor_malformed (c : Cell) (s : String) (hidx : c.index = some s)
    (hparse : parsePyInt s = none) (cur : Int) : targetCursor c cur = cur := by
  simp [targetCursor, hidx, hparse]

/-- A cell whose index fails to parse behaves exactly like the same cell
with the attribute removed. -/
theorem parseCells_malformed (c : Cell) (cs : List Cell) (s : String)
    (hidx : c.index = some s) (hparse : parsePyInt s = none) (cur : Int) :
    parseCells (c :: cs) cur = parseCells ({ c with index := none } :: cs) cur := by
  cases c with
  | mk ci cd =>
    simp only [parseCells]
    rw [targetCursor_malformed ⟨ci, cd⟩ s hidx hparse cur]
    simp [targetCursor, get_cell_text]

/-- An in-bounds parsed index at or below the cursor leaves the cursor
unchanged: no gap-fill. -/
theorem targetCursor_le_cursor (c : Cell) (s : String) (t : Int)
    (hidx : c.index = some s) (hparse : parsePyInt s = some t) (cur : Int)
    (hle : t ≤ cur) : targetCursor c cur = cur := by
  simp [targetCursor, hidx, hparse, max_eq_left hle]

/-! ### Helper lemmas about normalization -/

/-- Normalization always yields exactly the header length. -/
theorem normalizeRow_length (N : Nat) (r : List String) :
    (normalizeRow N r).length = N := by
  unfold normalizeRow
  split
  · simp; omega
  · split
    · simp; omega
    · omega

/-- A row already at the header length passes through unchanged. -/
theorem normalizeRow_of_length_eq (N : Nat) (r : List String)
    (h : r.length = N) : normalizeRow N r = r := by
  unfold normalizeRow
  split
  · omega
  · split
    · omega
    · rfl

/-! ### Claim theorems -/

/-- C1: for a row whose cells are `(index=1, "A")` and `(index=3, "C")`,
`parse_rows` on a table containing just that row produces `[["A","","C"]]`:
the explicit index 3, strictly greater than the running cursor 2, causes an
empty string to be appended for the skipped column 2 before `"C"`. -/
theorem c1_explicit_index_gap_fill :
    parse_rows ⟨[⟨[⟨some "1", some (some "A")⟩, ⟨some "3", some (some "C")⟩]⟩]⟩
      = [["A", "", "C"]] := by
  decide

/-- C2: for every row in which no cell carries an `ss:Index` attribute,
reconstruction returns exactly the cells' text values in source order. -/
theorem c2_no_index_is_identity (cells : List Cell)
    (h : ∀ c ∈ cells, c.index = none) :
    reconstructRow cells = cells.map get_cell_text := by
  unfold reconstructRow
  rw [parseCells_no_index cells h 1]

/-- Witness for C2 at the header row of Scenario A. -/
theorem c2_no_index_is_identity_witness :
    reconstructRow [⟨none, some (some "Name")⟩, ⟨none, some (some "Age")⟩]
      = List.map get_cell_text
          [⟨none, some (some "Name")⟩, ⟨none, some (some "Age")⟩] :=
  c2_no_index_is_identity
    [⟨none, some (some "Name")⟩, ⟨none, some (some "Age")⟩] (by decide)

/-- C3: when a cell's explicit index parses to `t` strictly below the
cursor reached after the preceding cells, no gap-fill occurs: the output is
the output for the preceding cells followed immediately by this cell's
text, then the remainder from cursor `+ 1`; moreover the cursor never moves
backward at any point of the loop. -/
theorem c3_out_of_order_index (pre rest : List Cell) (c : Cell) (s : String)
    (t : Int) (hidx : c.index = some s) (hparse : parsePyInt s = some t)
    (hlt : t < (parseCells pre 1).2) :
    (parseCells (pre ++ c :: rest) 1).1
      = (parseCells pre 1).1
          ++ get_cell_text c :: (parseCells rest ((parseCells pre 1).2 + 1)).1
    ∧ ∀ (cells : List Cell) (cur : Int), cur ≤ (parseCells cells cur).2 := by
  refine ⟨?_, fun cells cur => parseCells_cursor_mono cells cur⟩
  rw [parseCells_append]
  simp only [parseCells]
  rw [targetCursor_le_cursor c s t hidx hparse _ (le_of_lt hlt)]
  simp

/-- Witness for C3: after a first cell the cursor is 2, and a second cell
with explicit index 1 is appended right after it with no gap-fill. -/
theorem c3_out_of_order_index_witness :
    (parseCells ([⟨none, some (some "A")⟩] ++ ⟨some "1", some (some "B")⟩ :: []) 1).1
      = (parseCells [⟨none, some (some "A")⟩] 1).1
          ++ get_cell_text ⟨some "1", some (some "B")⟩
              :: (parseCells [] ((parseCells [⟨none, some (some "A")⟩] 1).2 + 1)).1
    ∧ ∀ (cells : List Cell) (cur : Int), cur ≤ (parseCells cells cur).2 :=
  c3_out_of_order_index [⟨none, some (some "A")⟩] [] ⟨some "1", some (some "B")⟩
    "1" 1 rfl (by decide) (by decide)

/-- C4: the length of every reconstructed row equals the final value of the
column cursor minus 1, the cursor starting at 1 and advancing once per
appended string. -/
theorem c4_length_is_final_cursor_minus_one (r : Row) :
    ((reconstructRow r.cells).length : Int) = finalCursor r.cells - 1 := by
  unfold reconstructRow finalCursor
  have h := parseCells_sndEq r.cells 1
  omega

/-- C5: a cell whose `ss:Index` attribute does not parse as an integer does
not raise and is treated exactly as if it carried no index: reconstruction
of the row equals reconstruction of the same row with the attribute
removed. -/
theorem c5_malformed_index_ignored (pre cs : List Cell) (c : Cell)
    (s : String) (hidx : c.index = some s) (hparse : parsePyInt s = none) :
    reconstructRow (pre ++ c :: cs)
      = reconstructRow (pre ++ { c with index := none } :: cs) := by
  unfold reconstructRow
  rw [parseCells_append, parseCells_append,
    parseCells_malformed c cs s hidx hparse]

/-- Witness for C5 at Scenario F: index `"abc"`. -/
theorem c5_malformed_index_ignored_witness :
    reconstructRow ([] ++ ⟨some "abc", some (some "X")⟩ :: [⟨none, some (some "Y")⟩])
      = reconstructRow ([] ++ ⟨none, some (some "X")⟩ :: [⟨none, some (some "Y")⟩]) :=
  c5_malformed_index_ignored [] [⟨none, some (some "Y")⟩]
    ⟨some "abc", some (some "X")⟩ "abc" rfl (by decide)

/-- C6: with `N` the header length, normalization maps every data row to a
row of length exactly `N`: shorter rows are right-padded with `""`, longer
rows are truncated to their first `N` entries, equal-length rows pass
through unchanged; it is total (a plain function). -/
theorem c6_normalize_to_header_width (N : Nat) (r : List String) :
    (normalizeRow N r).length = N
    ∧ (r.length < N → normalizeRow N r = r ++ List.replicate (N - r.length) "")
    ∧ (N < r.length → normalizeRow N r = r.take N)
    ∧ (r.length = N → normalizeRow N r = r) := by
  refine ⟨normalizeRow_length N r, fun hlt => ?_, fun hgt => ?_, fun heq =>
    normalizeRow_of_length_eq N r heq⟩
  · unfold normalizeRow
    rw [if_pos hlt]
  · unfold normalizeRow
    rw [if_neg (by omega), if_pos hgt]

/-- Witness for C6 at Scenario D: `["x"]` against 3 headers. -/
theorem c6_normalize_to_header_width_witness :
    (normalizeRow 3 ["x"]).length = 3
    ∧ normalizeRow 3 ["x"] = ["x"] ++ List.replicate (3 - (["x"] : List String).length) "" :=
  ⟨(c6_normalize_to_header_width 3 ["x"]).1,
   (c6_normalize_to_header_width 3 ["x"]).2.1 (by decide)⟩

/-- C7: normalization to header width is idempotent, and any row already at
the header length is returned unchanged. -/
theorem c7_normalize_idempotent (N : Nat) (r : List String) :
    normalizeRow N (normalizeRow N r) = normalizeRow N r
    ∧ (r.length = N → normalizeRow N r = r) := by
  exact ⟨normalizeRow_of_length_eq N _ (normalizeRow_length N r),
    fun h => normalizeRow_of_length_eq N r h⟩

/-- Witness for C7. -/
theorem c7_normalize_idempotent_witness :
    normalizeRow 2 (normalizeRow 2 ["a", "b", "c"]) = normalizeRow 2 ["a", "b", "c"]
    ∧ normalizeRow 2 ["a", "b"] = ["a", "b"] :=
  ⟨(c7_normalize_idempotent 2 ["a", "b", "c"]).1,
   (c7_normalize_idempotent 2 ["a", "b"]).2 (by decide)⟩

/-- C8: if the first worksheet's first table contains zero `Row` elements,
the run terminates with the no-rows diagnostic on stderr, exit code 2, and
no `output.csv` content is written. -/
theorem c8_zero_rows_error (root : Root) (w : Worksheet)
    (ws' : List Worksheet) (t : Table) (ts' : List Table)
    (hws : root.worksheets = w :: ws') (hts : w.tables = t :: ts')
    (hrows : t.rows = []) :
    mainModel (.parsed root)
      = ⟨2, none, some "Error: no rows found in the table."⟩ := by
  simp [mainModel, hws, hts, parse_rows, hrows]

/-- Witness for C8 at a document with one worksheet holding one empty
table. -/
theorem c8_zero_rows_error_witness :
    mainModel (.parsed ⟨[⟨[⟨[]⟩]⟩]⟩)
      = ⟨2, none, some "Error: no rows found in the table."⟩ :=
  c8_zero_rows_error ⟨[⟨[⟨[]⟩]⟩]⟩ ⟨[⟨[]⟩]⟩ [] ⟨[]⟩ [] rfl rfl rfl

/-- C9: `parse_rows` is total on every table: whatever the cells, the index
attribute strings (non-numeric, negative, zero or large) and the `Data`
children, it produces one string list per `Row`, each at least as long as
its cell list (every cell's text is appended; the only guarded operation,
the integer parse, falls back to the cursor). -/
theorem c9_parse_rows_total (t : Table) :
    (parse_rows t).length = t.rows.length
    ∧ ∀ r ∈ t.rows, r.cells.length ≤ (reconstructRow r.cells).length := by
  refine ⟨by simp [parse_rows], fun r _ => parseCells_length_ge r.cells 1⟩

/-- Witness for C9 at a row with negative, non-numeric and zero indices and
missing or empty `Data` children. -/
theorem c9_parse_rows_total_witness :
    (parse_rows ⟨[⟨[⟨some "-5", some (some "X")⟩, ⟨some "abc", none⟩,
        ⟨some "0", some none⟩]⟩]⟩).length = 1
    ∧ (Row.mk [⟨some "-5", some (some "X")⟩, ⟨some "abc", none⟩,
        ⟨some "0", some none⟩]).cells.length
        ≤ (reconstructRow (Row.mk [⟨some "-5", some (some "X")⟩,
            ⟨some "abc", none⟩, ⟨some "0", some none⟩]).cells).length :=
  ⟨(c9_parse_rows_total ⟨[⟨[⟨some "-5", some (some "X")⟩, ⟨some "abc", none⟩,
      ⟨some "0", some none⟩]⟩]⟩).1,
   (c9_parse_rows_total ⟨[⟨[⟨some "-5", some (some "X")⟩, ⟨some "abc", none⟩,
      ⟨some "0", some none⟩]⟩]⟩).2
     ⟨[⟨some "-5", some (some "X")⟩, ⟨some "abc", none⟩, ⟨some "0", some none⟩]⟩
     (by decide)⟩

/-- C10: only the first `Worksheet` and its first `Table` are converted:
any further tables in the first worksheet and any further worksheets are
ignored and do not affect the outcome. -/
theorem c10_first_worksheet_first_table (t : Table) (ts' : List Table)
    (ws' : List Worksheet) :
    mainModel (.parsed (Root.mk (Worksheet.mk (t :: ts') :: ws')))
      = mainModel (.parsed (Root.mk [Worksheet.mk [t]])) := by
  simp [mainModel]

end XmlToCsv
